import Mathlib

/-!
Shallow embedding of `src/Endos.py` (the `CameraWidget` class of the
endoscope-viewer program) and verification of its specified behaviour.

Images are modelled as height × width grids of three-channel pixels
(channel samples are natural numbers; device frames carry byte samples,
i.e. values ≤ 255, in BGR channel order `c0 = blue, c1 = green, c2 = red`).
The OpenCV calls the program makes (`cv2.resize` with `INTER_LINEAR`,
`cv2.convertScaleAbs`, `cv2.cvtColor BGR2RGB`) are modelled from their
documented semantics; the Qt widgets are modelled by the pieces of state
the program reads back (button labels) and by treating each file dialog
as an input string ("" = the user cancelled, matching the falsy empty
path Python tests with `if out_path:`).
-/

set_option autoImplicit false

namespace Endos

/-- One pixel: three channel samples. For frames pulled from the device the
order is BGR (`c0` = blue, `c1` = green, `c2` = red) and each sample is a
byte (≤ 255). -/
structure Pixel where
  c0 : Nat
  c1 : Nat
  c2 : Nat
deriving DecidableEq, Repr, Inhabited

/-- An image buffer: `h × w` pixels, addressed row-major as `data i j`
for row `i < h`, column `j < w` (values outside the bounds are
irrelevant padding of the model). -/
structure Image where
  h : Nat
  w : Nat
  data : Nat → Nat → Pixel

/-- Model of `cv2.convertScaleAbs(frame, alpha=1, beta)` applied to one
channel sample: OpenCV computes `saturate_cast<uchar>(|alpha*x + beta|)`,
i.e. the absolute value of `x + beta` saturated at 255 (NOT a clamp of
`x + beta` to `[0, 255]`: a negative sum is reflected, not floored at 0). -/
def convertScaleAbsSample (beta : Int) (x : Nat) : Nat :=
  min ((x : Int) + beta).natAbs 255

/-- Model of `cv2.convertScaleAbs(frame, alpha=1, beta)` on a whole image:
`convertScaleAbsSample` on every channel of every pixel; dimensions kept. -/
def cv2convertScaleAbs (beta : Int) (img : Image) : Image :=
  { img with data := fun i j =>
      { c0 := convertScaleAbsSample beta (img.data i j).c0
        c1 := convertScaleAbsSample beta (img.data i j).c1
        c2 := convertScaleAbsSample beta (img.data i j).c2 } }

/-- Model of `cv2.cvtColor(frame, cv2.COLOR_BGR2RGB)`: reverse the channel
order of every pixel; dimensions kept. -/
def cv2cvtColorBGR2RGB (img : Image) : Image :=
  { img with data := fun i j =>
      { c0 := (img.data i j).c2
        c1 := (img.data i j).c1
        c2 := (img.data i j).c0 } }

/-- The source coordinate OpenCV samples for destination index `d` when
resizing a length-`srcLen` axis to length `dstLen`:
`(d + 0.5) * srcLen / dstLen - 0.5`. -/
def srcCoord (srcLen dstLen : Nat) (d : Nat) : ℚ :=
  ((d : ℚ) + 1/2) * ((srcLen : ℚ) / (dstLen : ℚ)) - 1/2

/-- Clamp an integer into `[lo, hi]`. -/
def clampInt (lo hi v : Int) : Int :=
  max lo (min hi v)

/-- One channel of one destination pixel of a bilinear (`INTER_LINEAR`)
resize of `src` to `dstW × dstH`: interpolate between the four source
pixels around the back-projected coordinate, with border clamping, and
round to the nearest integer. (Exact rational arithmetic; OpenCV computes
the same formula in fixed point.) -/
def bilinearSample (src : Image) (sel : Pixel → Nat) (dstW dstH i j : Nat) : Nat :=
  let fy := srcCoord src.h dstH i
  let fx := srcCoord src.w dstW j
  let y0 : Int := clampInt 0 ((src.h : Int) - 1) ⌊fy⌋
  let x0 : Int := clampInt 0 ((src.w : Int) - 1) ⌊fx⌋
  let y1 : Int := clampInt 0 ((src.h : Int) - 1) (y0 + 1)
  let x1 : Int := clampInt 0 ((src.w : Int) - 1) (x0 + 1)
  let wy : ℚ := max 0 (min 1 (fy - (y0 : ℚ)))
  let wx : ℚ := max 0 (min 1 (fx - (x0 : ℚ)))
  let p : Int → Int → ℚ := fun y x => (sel (src.data y.toNat x.toNat) : ℚ)
  let v : ℚ := (1 - wy) * ((1 - wx) * p y0 x0 + wx * p y0 x1)
             + wy * ((1 - wx) * p y1 x0 + wx * p y1 x1)
  (⌊v + 1/2⌋).toNat

/-- Model of `cv2.resize(src, (dstW, dstH), interpolation=cv2.INTER_LINEAR)`.
OpenCV asserts the source is non-empty and raises on an empty one; the
raised exception is modelled as `none`. -/
def cv2resize (src : Image) (dstW dstH : Nat) : Option Image :=
  if src.h = 0 ∨ src.w = 0 then none
  else some
    { h := dstH
      w := dstW
      data := fun i j =>
        { c0 := bilinearSample src Pixel.c0 dstW dstH i j
          c1 := bilinearSample src Pixel.c1 dstW dstH i j
          c2 := bilinearSample src Pixel.c2 dstW dstH i j } }

/-- `CameraWidget.apply_zoom` (src/Endos.py lines 138-146): for a zoom
factor above 1, crop the centered `h/zf × w/zf` window (floor division,
`frame[y1 : y1 + nh, x1 : x1 + nw]`) and resize it back to `(w, h)` with
linear interpolation; factor 1 returns the frame unchanged. `none` models
the `cv2.error` raised when the crop is empty. -/
def apply_zoom (zf : Nat) (frame : Image) : Option Image :=
  if zf > 1 then
    let h := frame.h
    let w := frame.w
    let nh := h / zf
    let nw := w / zf
    let y1 := (h - nh) / 2
    let x1 := (w - nw) / 2
    let cropped : Image := { h := nh, w := nw, data := fun i j => frame.data (y1 + i) (x1 + j) }
    cv2resize cropped w h
  else some frame

/-- `CameraWidget.apply_brightness` (src/Endos.py lines 151-154): for a
non-zero offset, `cv2.convertScaleAbs(frame, alpha=1, beta=brightness)`;
offset 0 returns the frame unchanged. -/
def apply_brightness (brightness : Int) (frame : Image) : Image :=
  if brightness ≠ 0 then cv2convertScaleAbs brightness frame else frame

/-- Model of an open `cv2.VideoWriter`: the destination path, the fps and
frame size it was created with, and the list of frames `write` has
appended to it so far. -/
structure Writer where
  path : String
  fps : Nat
  width : Nat
  height : Nat
  frames : List Image

/-- The mutable state of a `CameraWidget` that the program reads or
writes: the freeze flag, the last acquired frame, the recording flag, the
optional open video writer, the zoom factor and brightness offset, and
the two button labels the handlers update (src/Endos.py lines 60-70). -/
structure AppState where
  is_frozen : Bool
  last_frame : Option Image
  is_recording : Bool
  video_writer : Option Writer
  zoom_factor : Nat
  brightness : Int
  record_btn_text : String
  freeze_btn_text : String

/-- The state set up by `CameraWidget.__init__` (src/Endos.py lines 26-27
and 60-70): not frozen, no frame yet, not recording, no writer, zoom 1,
brightness 0, buttons labelled "Start Recording" and "Freeze Frame". -/
def initState : AppState :=
  { is_frozen := false
    last_frame := none
    is_recording := false
    video_writer := none
    zoom_factor := 1
    brightness := 0
    record_btn_text := "Start Recording"
    freeze_btn_text := "Freeze Frame" }

/-- Frame-selection step of `CameraWidget.update_frame` (src/Endos.py
lines 73-79): if frozen AND a last frame exists, reuse it; otherwise pull
from the device (`capRead`: `none` models `ret == False`); a failed pull
yields `none` (early return), a successful one stores a copy of the frame
in `last_frame`. Returns the possibly updated state and the frame the
rest of the tick works on. -/
def pickFrame (s : AppState) (capRead : Option Image) : Option (AppState × Image) :=
  match s.is_frozen, s.last_frame with
  | true, some f => some (s, f)
  | _, _ =>
    match capRead with
    | none => none
    | some f => some ({ s with last_frame := some f }, f)

/-- Outcome of one timer tick: the state after the tick, the RGB image
painted into the label (if the tick got that far), and whether an
uncaught library exception aborted the tick (only `cv2.resize` on an
empty crop can raise here). -/
structure TickResult where
  state : AppState
  rendered : Option Image
  errored : Bool

/-- Rest of `CameraWidget.update_frame` after frame selection
(src/Endos.py lines 82-109): apply zoom then brightness, convert
BGR→RGB and paint it; if recording, lazily create the writer — prompting
for a destination (`dialog`; "" models a cancelled dialog, which flips
recording off, resets the button label and returns — and note the writer
is created with the dimensions of the already-transformed `frame`) —
then append the transformed `frame` (not the raw one) to the writer. -/
def tickAfterPick (s1 : AppState) (frame0 : Image) (dialog : String) : TickResult :=
  match apply_zoom s1.zoom_factor frame0 with
  | none => { state := s1, rendered := none, errored := true }
  | some zoomed =>
    let frame := apply_brightness s1.brightness zoomed
    let rgb := cv2cvtColorBGR2RGB frame
    if s1.is_recording then
      match s1.video_writer with
      | none =>
        if dialog ≠ "" then
          let wtr : Writer :=
            { path := dialog, fps := 30, width := frame.w, height := frame.h
              frames := [frame] }
          { state := { s1 with video_writer := some wtr }, rendered := some rgb
            errored := false }
        else
          { state := { s1 with is_recording := false
                               record_btn_text := "Start Recording" }
            rendered := some rgb, errored := false }
      | some wtr =>
        { state := { s1 with video_writer := some { wtr with frames := wtr.frames ++ [frame] } }
          rendered := some rgb, errored := false }
    else
      { state := s1, rendered := some rgb, errored := false }

/-- `CameraWidget.update_frame` (src/Endos.py lines 72-109), one timer
tick: frame selection followed by transform, render and recording. A
failed pull returns with no state change and nothing rendered. -/
def update_frame (s : AppState) (capRead : Option Image) (dialog : String) : TickResult :=
  match pickFrame s capRead with
  | none => { state := s, rendered := none, errored := false }
  | some (s1, frame0) => tickAfterPick s1 frame0 dialog

/-- What `CameraWidget.capture_image` did: whether the save dialog was
shown, and the path/image pair handed to `cv2.imwrite` (if any). -/
structure CaptureResult where
  dialogShown : Bool
  written : Option (String × Image)

/-- `CameraWidget.capture_image` (src/Endos.py lines 111-117): only when
a last frame exists, show the save dialog; if a path comes back, write
the raw `last_frame` to it. The widget state is not mutated. -/
def capture_image (s : AppState) (dialog : String) : CaptureResult :=
  match s.last_frame with
  | some f =>
    if dialog ≠ "" then { dialogShown := true, written := some (dialog, f) }
    else { dialogShown := true, written := none }
  | none => { dialogShown := false, written := none }

/-- `CameraWidget.toggle_recording` (src/Endos.py lines 119-129): start
sets the flag, relabels the button and resets the writer handle to
`None`; stop clears the flag, relabels the button and, if a writer is
open, releases it and clears the handle. The second component is the
writer released by this call (`none` when nothing was released). -/
def toggle_recording (s : AppState) : AppState × Option Writer :=
  if !s.is_recording then
    ({ s with is_recording := true, record_btn_text := "Stop Recording"
              video_writer := none }, none)
  else
    match s.video_writer with
    | some wtr =>
      ({ s with is_recording := false, record_btn_text := "Start Recording"
                video_writer := none }, some wtr)
    | none =>
      ({ s with is_recording := false, record_btn_text := "Start Recording" }, none)

/-- `CameraWidget.toggle_freeze` (src/Endos.py lines 131-133): flip the
freeze flag and relabel the freeze button. -/
def toggle_freeze (s : AppState) : AppState :=
  { s with is_frozen := !s.is_frozen
           freeze_btn_text := if !s.is_frozen then "Unfreeze" else "Freeze Frame" }

/-- `CameraWidget.update_zoom` (src/Endos.py lines 135-136): store the
slider value as the zoom factor. -/
def update_zoom (s : AppState) (value : Nat) : AppState :=
  { s with zoom_factor := value }

/-- `CameraWidget.update_brightness` (src/Endos.py lines 148-149): store
the slider value as the brightness offset. -/
def update_brightness (s : AppState) (value : Int) : AppState :=
  { s with brightness := value }

/-- The brightness map exactly as the spec words it: every channel sample
`x` goes to `clamp(x + b, 0, 255)`. Stated from the spec, to be compared
with the source-derived `apply_brightness`. -/
def specClampAdd (b : Int) (x : Nat) : Nat :=
  (max 0 (min 255 ((x : Int) + b))).toNat

/-- The zoom crop exactly as the spec words it: the centered crop of size
`(h/f, w/f)` (floor division) with top-left corner
`((h - h/f)/2, (w - w/f)/2)`. Stated from the spec, to be compared with
the crop the source-derived `apply_zoom` feeds to the resize. -/
def specCenteredCrop (f : Nat) (img : Image) : Image :=
  { h := img.h / f
    w := img.w / f
    data := fun i j =>
      img.data ((img.h - img.h / f) / 2 + i) ((img.w - img.w / f) / 2 + j) }

/-- A `h × w` image all of whose pixels are `p`. -/
def constImg (h w : Nat) (p : Pixel) : Image :=
  { h := h, w := w, data := fun _ _ => p }

/-- An all-black (all channel samples 0) 2 × 2 test frame. -/
def blackImg : Image := constImg 2 2 ⟨0, 0, 0⟩

/-- A mid-grey 4 × 8 test frame. -/
def greyImg : Image := constImg 4 8 ⟨10, 10, 10⟩

/-- Frame selection only rewrites `last_frame`: every other field of the
state it returns agrees with the input state, and the stored `last_frame`
is exactly the selected frame. -/
theorem pickFrame_fields (s s1 : AppState) (cap : Option Image) (f : Image)
    (h : pickFrame s cap = some (s1, f)) :
    s1.is_frozen = s.is_frozen ∧ s1.is_recording = s.is_recording ∧
    s1.video_writer = s.video_writer ∧ s1.zoom_factor = s.zoom_factor ∧
    s1.brightness = s.brightness ∧ s1.record_btn_text = s.record_btn_text ∧
    s1.freeze_btn_text = s.freeze_btn_text ∧ s1.last_frame = some f := by
  unfold pickFrame at h
  cases hfz : s.is_frozen <;> cases hlf : s.last_frame <;> rw [hfz, hlf] at h
  · cases cap <;> simp at h
    obtain ⟨rfl, rfl⟩ := h
    simp [hlf]
  · cases cap <;> simp at h
    obtain ⟨rfl, rfl⟩ := h
    simp [hlf]
  · cases cap <;> simp at h
    obtain ⟨rfl, rfl⟩ := h
    simp [hlf]
  · simp at h
    obtain ⟨rfl, rfl⟩ := h
    simp [hfz, hlf]

/-- C2 counterexample: the claim says brightness offset b maps every
channel sample x to clamp(x + b, 0, 255), and that the clamp holds at the
extreme input 0 for b = -100. On the all-black frame with b = -100 the
code (`cv2.convertScaleAbs`) produces sample |0 - 100| = 100, while the
claimed clamp gives 0. -/
theorem brightness_clamp_cex :
    (apply_brightness (-100) blackImg).data 0 0 = ⟨100, 100, 100⟩ ∧
    specClampAdd (-100) ((blackImg.data 0 0).c0) = 0 ∧
    (apply_brightness (-100) blackImg).data 0 0 ≠
      { c0 := specClampAdd (-100) ((blackImg.data 0 0).c0)
        c1 := specClampAdd (-100) ((blackImg.data 0 0).c1)
        c2 := specClampAdd (-100) ((blackImg.data 0 0).c2) } := by
  decide

/-- C2 amended: the brightness transform maps every channel sample x to
min(|x + b|, 255) — absolute value then saturation, the semantics of
`cv2.convertScaleAbs` with alpha = 1 — not to clamp(x + b, 0, 255).
Offset b = 0 leaves the frame unchanged, and whenever x + b ≥ 0 (so in
particular for every b ≥ 0, covering the claimed extremes x ∈ {0, 255}
with b ∈ {0, +100}, and for b = -100 at x = 255) the result coincides
with the claimed clamp(x + b, 0, 255) on byte samples x ≤ 255. -/
theorem apply_brightness_spec (b : Int) (img : Image) (i j : Nat) :
    (b = 0 → apply_brightness b img = img) ∧
    (b ≠ 0 → (apply_brightness b img).data i j =
      { c0 := convertScaleAbsSample b ((img.data i j).c0)
        c1 := convertScaleAbsSample b ((img.data i j).c1)
        c2 := convertScaleAbsSample b ((img.data i j).c2) }) ∧
    ((img.data i j).c0 ≤ 255 → 0 ≤ ((img.data i j).c0 : Int) + b →
      ((apply_brightness b img).data i j).c0 = specClampAdd b ((img.data i j).c0)) := by
  refine ⟨fun hb => by simp [apply_brightness, hb],
          fun hb => by simp [apply_brightness, hb, cv2convertScaleAbs],
          fun hx h0 => ?_⟩
  by_cases hb : b = 0
  · subst hb
    simp [apply_brightness, specClampAdd]
    omega
  · simp [apply_brightness, hb, cv2convertScaleAbs, convertScaleAbsSample, specClampAdd]
    omega

/-- C2 amended, witness at b = 60 on the all-black frame: sample 0 maps
to clamp(0 + 60, 0, 255) = 60. -/
theorem apply_brightness_spec_witness :
    (blackImg.data 0 0).c0 ≤ 255 ∧
    ((apply_brightness 60 blackImg).data 0 0).c0 = specClampAdd 60 ((blackImg.data 0 0).c0) :=
  ⟨by decide, (apply_brightness_spec 60 blackImg 0 0).2.2 (by decide) (by decide)⟩

/-- C4: zoom factor 1 is the identity, and for a factor f ∈ {2,3,4} on a
frame at least f pixels tall and wide (so the crop is non-empty and the
library resize is defined), `apply_zoom` is exactly the linear resize of
the spec's centered (h/f) × (w/f) crop back to the original size, and
the output dimensions equal the input dimensions. -/
theorem apply_zoom_spec (img : Image) (f : Nat) :
    (f = 1 → apply_zoom f img = some img) ∧
    (1 < f → f ≤ 4 → f ≤ img.h → f ≤ img.w →
      apply_zoom f img = cv2resize (specCenteredCrop f img) img.w img.h ∧
      (apply_zoom f img).map (fun o => (o.h, o.w)) = some (img.h, img.w)) := by
  constructor
  · intro hf
    subst hf
    simp [apply_zoom]
  · intro h1 _ hh hw
    have hzf : 0 < f := lt_trans Nat.zero_lt_one h1
    have hnh : img.h / f ≠ 0 := by
      have := (Nat.one_le_div_iff hzf).mpr hh
      omega
    have hnw : img.w / f ≠ 0 := by
      have := (Nat.one_le_div_iff hzf).mpr hw
      omega
    have heq : apply_zoom f img = cv2resize (specCenteredCrop f img) img.w img.h := by
      unfold apply_zoom
      rw [if_pos h1]
      rfl
    refine ⟨heq, ?_⟩
    rw [heq]
    unfold cv2resize
    rw [if_neg (by simp [specCenteredCrop, hnh, hnw])]
    simp

/-- The post-selection part of the tick never touches `last_frame`, the
freeze flag, the zoom factor or the brightness offset. -/
theorem tickAfterPick_state_fields (s1 : AppState) (f : Image) (d : String) :
    (tickAfterPick s1 f d).state.last_frame = s1.last_frame ∧
    (tickAfterPick s1 f d).state.is_frozen = s1.is_frozen ∧
    (tickAfterPick s1 f d).state.zoom_factor = s1.zoom_factor ∧
    (tickAfterPick s1 f d).state.brightness = s1.brightness := by
  unfold tickAfterPick
  cases apply_zoom s1.zoom_factor f
  · simp
  · cases hrec : s1.is_recording
    · simp [hrec]
    · cases hw : s1.video_writer
      · by_cases hd : d = "" <;> simp [hrec, hw, hd]
      · simp [hrec, hw]

/-- Whenever the zoom transform succeeds, the tick paints the BGR→RGB
conversion of the brightness-adjusted zoomed frame, in every recording
branch. -/
theorem tickAfterPick_rendered (s1 : AppState) (f z : Image) (d : String)
    (hz : apply_zoom s1.zoom_factor f = some z) :
    (tickAfterPick s1 f d).rendered =
      some (cv2cvtColorBGR2RGB (apply_brightness s1.brightness z)) := by
  unfold tickAfterPick
  rw [hz]
  cases hrec : s1.is_recording
  · simp [hrec]
  · cases hw : s1.video_writer
    · by_cases hd : d = "" <;> simp [hrec, hw, hd]
    · simp [hrec, hw]

/-- C4 witness at zoom factor 2 on a 4 × 8 frame: the transform agrees
with resizing the spec's centered crop and keeps the dimensions 4 × 8. -/
theorem apply_zoom_spec_witness :
    (1 : Nat) < 2 ∧ 2 ≤ greyImg.h ∧ 2 ≤ greyImg.w ∧
    apply_zoom 2 greyImg = cv2resize (specCenteredCrop 2 greyImg) greyImg.w greyImg.h ∧
    (apply_zoom 2 greyImg).map (fun o => (o.h, o.w)) = some (greyImg.h, greyImg.w) :=
  ⟨by decide, by decide, by decide,
   ((apply_zoom_spec greyImg 2).2 (by decide) (by decide) (by decide) (by decide)).1,
   ((apply_zoom_spec greyImg 2).2 (by decide) (by decide) (by decide) (by decide)).2⟩

/-- A state in the middle of an active recording session: recording flag
set, a writer open on "v.mp4", a frozen stored frame, brightness 50. -/
def recState : AppState :=
  { is_frozen := true
    last_frame := some greyImg
    is_recording := true
    video_writer := some { path := "v.mp4", fps := 30, width := 8, height := 4, frames := [] }
    zoom_factor := 1
    brightness := 50
    record_btn_text := "Stop Recording"
    freeze_btn_text := "Unfreeze" }

/-- A state where recording was just started (flag set, no writer yet). -/
def recPendingState : AppState :=
  { initState with is_recording := true, record_btn_text := "Stop Recording" }

/-- A state holding an acquired frame, otherwise pristine. -/
def frameState : AppState :=
  { initState with last_frame := some greyImg }

/-- C5: stopping recording always clears the recording flag, releases
exactly the writer that was open (if any) and clears the handle; starting
recording always sets the flag, relabels the button and resets the writer
handle to empty, so the next tick must create a fresh writer (prompting
for a new destination) — a previous session's handle is never carried
over. -/
theorem toggle_recording_spec (s : AppState) :
    (s.is_recording = true →
      (toggle_recording s).1.is_recording = false ∧
      (toggle_recording s).1.video_writer = none ∧
      (toggle_recording s).2 = s.video_writer ∧
      (toggle_recording s).1.record_btn_text = "Start Recording") ∧
    (s.is_recording = false →
      (toggle_recording s).1.is_recording = true ∧
      (toggle_recording s).1.video_writer = none ∧
      (toggle_recording s).2 = none ∧
      (toggle_recording s).1.record_btn_text = "Stop Recording") := by
  constructor
  · intro h
    cases hw : s.video_writer <;> simp [toggle_recording, h, hw]
  · intro h
    simp [toggle_recording, h]

/-- C5 witness: stopping the active session of `recState` clears the flag,
hands back exactly the open writer, and empties the handle. -/
theorem toggle_recording_spec_witness :
    (toggle_recording recState).1.is_recording = false ∧
    (toggle_recording recState).1.video_writer = none ∧
    (toggle_recording recState).2 = recState.video_writer ∧
    (toggle_recording recState).1.record_btn_text = "Start Recording" :=
  (toggle_recording_spec recState).1 rfl

/-- C7: on a non-frozen tick whose device pull fails, the tick returns at
once: the whole state (last_frame, freeze flag, recording flag, writer)
is unchanged, nothing is rendered, and no exception occurs — so nothing
is appended to any writer. -/
theorem failed_pull_no_change (s : AppState) (d : String) (h : s.is_frozen = false) :
    update_frame s none d = { state := s, rendered := none, errored := false } := by
  unfold update_frame pickFrame
  rw [h]

/-- C7 witness: a failed pull on the pristine state changes nothing. -/
theorem failed_pull_no_change_witness :
    initState.is_frozen = false ∧
    update_frame initState none "p" = { state := initState, rendered := none, errored := false } :=
  ⟨rfl, failed_pull_no_change initState "p" rfl⟩

/-- C9: the capture button with no frame ever acquired shows no dialog
and writes nothing; with a stored Current frame and a chosen path it
writes exactly the raw stored frame to that path; with the dialog
cancelled it shows the dialog but writes nothing. -/
theorem capture_image_spec (s : AppState) (d : String) (f : Image) :
    (s.last_frame = none →
      capture_image s d = { dialogShown := false, written := none }) ∧
    (s.last_frame = some f → d ≠ "" →
      capture_image s d = { dialogShown := true, written := some (d, f) }) ∧
    (s.last_frame = some f → d = "" →
      capture_image s d = { dialogShown := true, written := none }) := by
  refine ⟨fun h => by simp [capture_image, h],
          fun h hd => by simp [capture_image, h, hd],
          fun h hd => by simp [capture_image, h, hd]⟩

/-- C9 witness: no stored frame means no dialog and no write; a stored
frame plus a chosen path writes the raw stored frame. -/
theorem capture_image_spec_witness :
    capture_image initState "img.png" = { dialogShown := false, written := none } ∧
    capture_image frameState "img.png" = { dialogShown := true, written := some ("img.png", greyImg) } :=
  ⟨(capture_image_spec initState "img.png" greyImg).1 rfl,
   (capture_image_spec frameState "img.png" greyImg).2.1 rfl (by decide)⟩

/-- A state frozen before any frame was ever acquired. -/
def frozenEmptyState : AppState :=
  { initState with is_frozen := true, freeze_btn_text := "Unfreeze" }

/-- C1 counterexample: in `recState` (recording active, writer open,
zoom 1, brightness 50, frozen Current frame with samples 10) the tick
appends a frame with samples 60 — the brightened frame — while the raw
Current frame kept in `last_frame` has samples 10. The claim that the
raw frame is appended for every brightness offset is therefore false:
line 109 of src/Endos.py writes the variable `frame`, which lines 82-84
have already replaced by the transformed frame. -/
theorem record_raw_frame_cex :
    ((update_frame recState none "").state.video_writer).map
        (fun w => w.frames.map (fun fr => fr.data 0 0)) = some [⟨60, 60, 60⟩] ∧
    ((update_frame recState none "").state.last_frame).map
        (fun fr => fr.data 0 0) = some ⟨10, 10, 10⟩ ∧
    ((update_frame recState none "").state.video_writer).map
        (fun w => w.frames.map (fun fr => fr.data 0 0)) ≠
      ((update_frame recState none "").state.last_frame).map
        (fun fr => [fr.data 0 0]) := by
  refine ⟨by decide, by decide, by decide⟩

/-- C1 amended: on every successful tick during an active recording
session with an open writer, the frame appended to the video file is the
TRANSFORMED frame — the Current frame with zoom and brightness applied,
still in BGR order (the Display frame before RGB conversion) — and it
coincides with the raw Current frame when zoom = 1 and brightness = 0. -/
theorem recorded_frame_is_transformed (s s1 : AppState) (cap : Option Image)
    (d : String) (w : Writer) (f z : Image)
    (hrec : s.is_recording = true) (hw : s.video_writer = some w)
    (hpick : pickFrame s cap = some (s1, f))
    (hz : apply_zoom s.zoom_factor f = some z) :
    (update_frame s cap d).state.video_writer =
      some { w with frames := w.frames ++ [apply_brightness s.brightness z] } ∧
    (s.zoom_factor = 1 → s.brightness = 0 → apply_brightness s.brightness z = f) := by
  obtain ⟨_, hrec1, hw1, hzf1, hb1, _, _, _⟩ := pickFrame_fields s s1 cap f hpick
  constructor
  · unfold update_frame
    rw [hpick]
    show (tickAfterPick s1 f d).state.video_writer = _
    unfold tickAfterPick
    rw [hzf1, hz]
    simp [hrec1, hrec, hw1, hw, hb1]
  · intro h1 h0
    rw [h1] at hz
    simp [apply_zoom] at hz
    rw [h0]
    simp [apply_brightness, hz]

/-- C1 amended, witness: one tick of `recState` appends the brightened
frame to the open writer. -/
theorem recorded_frame_is_transformed_witness :
    (update_frame recState none "p").state.video_writer =
      some { path := "v.mp4", fps := 30, width := 8, height := 4
             frames := [apply_brightness 50 greyImg] } :=
  (recorded_frame_is_transformed recState recState none "p"
    { path := "v.mp4", fps := 30, width := 8, height := 4, frames := [] }
    greyImg greyImg rfl rfl rfl rfl).1

/-- C3 counterexample: with the Freeze flag true but no frame ever
stored, the tick does NOT skip acquisition — it pulls from the device and
overwrites `last_frame` (line 73 of src/Endos.py requires both the flag
AND a stored frame to skip). The claim "whenever the Freeze flag is true,
acquisition is skipped and last_frame is left unchanged" is false. -/
theorem freeze_skip_cex :
    frozenEmptyState.is_frozen = true ∧
    frozenEmptyState.last_frame.isSome = false ∧
    ((update_frame frozenEmptyState (some greyImg) "").state.last_frame).isSome = true ∧
    ((update_frame frozenEmptyState (some greyImg) "").state.last_frame).map
        (fun fr => fr.data 0 0) = some ⟨10, 10, 10⟩ := by
  refine ⟨rfl, rfl, rfl, rfl⟩

/-- C3 amended: whenever the Freeze flag is true AND a previously
acquired frame exists, acquisition is skipped — the tick's outcome is
independent of the device read — and `last_frame` is left unchanged,
being reused as the source of the display and of any recorded frame. -/
theorem freeze_reuses_last_frame (s : AppState) (f : Image) (cap cap2 : Option Image)
    (d : String) (hfz : s.is_frozen = true) (hlf : s.last_frame = some f) :
    (update_frame s cap d).state.last_frame = some f ∧
    update_frame s cap d = update_frame s cap2 d := by
  have hp : ∀ c : Option Image, pickFrame s c = some (s, f) := fun c => by
    unfold pickFrame
    rw [hfz, hlf]
  constructor
  · unfold update_frame
    rw [hp cap]
    exact (tickAfterPick_state_fields s f d).1.trans hlf
  · unfold update_frame
    rw [hp cap, hp cap2]

/-- C3 amended, witness: the frozen `recState` ignores a fresh device
frame, keeps its stored frame, and behaves identically to a tick with a
failed device read. -/
theorem freeze_reuses_last_frame_witness :
    (update_frame recState (some blackImg) "p").state.last_frame = some greyImg ∧
    update_frame recState (some blackImg) "p" = update_frame recState none "p" :=
  freeze_reuses_last_frame recState greyImg (some blackImg) none "p" rfl rfl

/-- C6: if recording has been started (flag set, no writer yet) and on
the next successful tick the user cancels the destination prompt, the
tick ends with recording off, the record button back at "Start
Recording", and no writer handle open — no file is ever created. -/
theorem record_cancel_reverts (s s1 : AppState) (cap : Option Image) (f z : Image)
    (hrec : s.is_recording = true) (hw : s.video_writer = none)
    (hpick : pickFrame s cap = some (s1, f))
    (hz : apply_zoom s.zoom_factor f = some z) :
    (update_frame s cap "").state.is_recording = false ∧
    (update_frame s cap "").state.record_btn_text = "Start Recording" ∧
    (update_frame s cap "").state.video_writer = none := by
  obtain ⟨_, hrec1, hw1, hzf1, _, _, _, _⟩ := pickFrame_fields s s1 cap f hpick
  unfold update_frame tickAfterPick
  rw [hpick]
  simp [hzf1, hz, hrec1, hrec, hw1, hw]

/-- C6 witness: cancelling the prompt on the first tick after a start in
`recPendingState` reverts recording with no writer open. -/
theorem record_cancel_reverts_witness :
    (update_frame recPendingState (some greyImg) "").state.is_recording = false ∧
    (update_frame recPendingState (some greyImg) "").state.record_btn_text = "Start Recording" ∧
    (update_frame recPendingState (some greyImg) "").state.video_writer = none :=
  record_cancel_reverts recPendingState { recPendingState with last_frame := some greyImg }
    (some greyImg) greyImg greyImg rfl rfl rfl rfl

/-- C8: on a tick with zoom factor 1 and brightness offset 0 the painted
Display frame is exactly the BGR→RGB reordering of the (unchanged)
Current frame: both transforms are the identity, and pixel (i, j) of the
display holds the Current frame's channels reversed. -/
theorem identity_settings_display (s s1 : AppState) (cap : Option Image) (d : String)
    (f : Image) (i j : Nat)
    (hz : s.zoom_factor = 1) (hb : s.brightness = 0)
    (hpick : pickFrame s cap = some (s1, f)) :
    (update_frame s cap d).rendered = some (cv2cvtColorBGR2RGB f) ∧
    (update_frame s cap d).state.last_frame = some f ∧
    (cv2cvtColorBGR2RGB f).data i j =
      { c0 := (f.data i j).c2, c1 := (f.data i j).c1, c2 := (f.data i j).c0 } := by
  obtain ⟨_, _, _, hzf1, hb1, _, _, hlf1⟩ := pickFrame_fields s s1 cap f hpick
  have hz1 : apply_zoom s1.zoom_factor f = some f := by
    rw [hzf1, hz]
    simp [apply_zoom]
  have hb0 : apply_brightness s1.brightness f = f := by
    rw [hb1, hb]
    simp [apply_brightness]
  have hren := tickAfterPick_rendered s1 f f d hz1
  rw [hb0] at hren
  refine ⟨?_, ?_, by simp [cv2cvtColorBGR2RGB]⟩
  · unfold update_frame
    rw [hpick]
    exact hren
  · unfold update_frame
    rw [hpick]
    exact (tickAfterPick_state_fields s1 f d).1.trans hlf1

/-- C8 witness: one live tick from the pristine state with a grey frame
renders exactly the channel-reversed grey frame. -/
theorem identity_settings_display_witness :
    (update_frame initState (some greyImg) "p").rendered = some (cv2cvtColorBGR2RGB greyImg) ∧
    (update_frame initState (some greyImg) "p").state.last_frame = some greyImg ∧
    (cv2cvtColorBGR2RGB greyImg).data 0 0 =
      { c0 := (greyImg.data 0 0).c2, c1 := (greyImg.data 0 0).c1, c2 := (greyImg.data 0 0).c0 } :=
  identity_settings_display initState { initState with last_frame := some greyImg }
    (some greyImg) "p" greyImg 0 0 rfl rfl rfl

/-- The invariant of C10: a writer handle is held only while the
recording flag is set. -/
def writerInv (s : AppState) : Prop :=
  s.video_writer.isSome = true → s.is_recording = true

/-- The post-selection part of a tick preserves `writerInv`: it opens a
writer only inside the recording branch (where the flag stays set), and
when the prompt is cancelled it clears the flag while the handle is still
empty. -/
theorem tickAfterPick_writerInv (s1 : AppState) (f : Image) (d : String)
    (h : writerInv s1) : writerInv (tickAfterPick s1 f d).state := by
  unfold tickAfterPick
  cases apply_zoom s1.zoom_factor f
  · simpa using h
  · cases hrec : s1.is_recording
    · simpa [hrec] using h
    · cases hw : s1.video_writer
      · by_cases hd : d = ""
        · simp [hrec, hw, hd, writerInv]
        · simp [hrec, hw, hd, writerInv]
      · simp [hrec, hw, writerInv]

/-- C10: every operation of the program keeps the invariant "a video
writer handle is open only while the recording flag is true": it holds in
the initial state and is preserved by a tick (for any device read and any
dialog answer), by the record toggle, the freeze toggle, and the two
slider handlers. (`capture_image` does not touch the state at all.) -/
theorem writer_only_while_recording (s : AppState) (cap : Option Image) (d : String)
    (z : Nat) (b : Int) :
    writerInv initState ∧
    (writerInv s → writerInv (update_frame s cap d).state) ∧
    (writerInv s → writerInv (toggle_recording s).1) ∧
    (writerInv s → writerInv (toggle_freeze s)) ∧
    (writerInv s → writerInv (update_zoom s z)) ∧
    (writerInv s → writerInv (update_brightness s b)) := by
  refine ⟨by simp [writerInv, initState], ?_, ?_, ?_, ?_, ?_⟩
  · intro h
    unfold update_frame
    cases hpick : pickFrame s cap
    · simpa using h
    · rename_i val
      obtain ⟨s1, f⟩ := val
      obtain ⟨_, hrec1, hw1, _, _, _, _, _⟩ := pickFrame_fields s s1 cap f hpick
      have h1 : writerInv s1 := by
        unfold writerInv
        rw [hrec1, hw1]
        exact h
      exact tickAfterPick_writerInv s1 f d h1
  · intro h
    unfold toggle_recording
    cases hrec : s.is_recording
    · simp [writerInv]
    · cases hw : s.video_writer <;> simp [writerInv, hw]
  · intro h
    simpa [toggle_freeze, writerInv] using h
  · intro h
    simpa [update_zoom, writerInv] using h
  · intro h
    simpa [update_brightness, writerInv] using h

/-- C10 witness: the invariant holds initially and survives a frozen
recording tick of `recState`. -/
theorem writer_only_while_recording_witness :
    writerInv initState ∧ writerInv (update_frame recState none "p").state :=
  ⟨(writer_only_while_recording recState none "p" 1 0).1,
   (writer_only_while_recording recState none "p" 1 0).2.1 (fun _ => rfl)⟩

end Endos
